import Mathlib

/-!
Verification of the friendship-request lifecycle of the repository.

The embedding mirrors the two source files:

* `src/server/api/routers/friendship-request-router.ts` — the guards
  `canSendFriendshipRequest` and `canAnswerFriendshipRequest`, the helpers
  `checkAndUpdateFriendshipRequest` and `acceptFriendshipRequest`, and the
  three mutations `send`, `accept`, `decline`.
* the friend-info router (`myFriendRouter.getById`) — the mutual-friend
  count join and the main friend-info query.

The relational store is modelled as a list of friendship rows plus a list
of user rows and a fresh-id counter.  SQL `executeTakeFirst` becomes
`List.find?`, an `updateTable ... where` becomes a `List.map` that rewrites
every matching row, and `insertInto` appends a row carrying the fresh id.
Each mutation returns the thrown `TRPCError` (if any) together with the
store state at the end of the call; a thrown error carries the state as it
was at the throw site, so "no partial effect" is a theorem, not a
representation artifact.
-/

inductive FriendshipStatus where
  | requested
  | accepted
  | declined
deriving DecidableEq, Repr

/-- A row of the `friendships` table (the `Friendship` interface in the
router source): an id, the sender, the receiver and the status. -/
structure Friendship where
  id : Nat
  userId : Nat
  friendUserId : Nat
  status : FriendshipStatus
deriving DecidableEq, Repr

/-- A row of the `users` table, with the fields the friend-info query
selects. -/
structure User where
  id : Nat
  fullName : String
  phoneNumber : String
deriving DecidableEq, Repr

/-- The relational store: the `users` and `friendships` tables, plus the
auto-increment counter used for fresh friendship ids. -/
structure Db where
  users : List User
  friendships : List Friendship
  nextId : Nat
deriving DecidableEq, Repr

/-- The `TRPCError`s the routers construct: `BAD_REQUEST` (optionally with
a message, as in `checkAndUpdateFriendshipRequest`) and `NOT_FOUND`. -/
inductive TRPCError where
  | badRequest (message : Option String)
  | notFound
deriving DecidableEq, Repr

/-- Point lookup of the edge `(userId, friendUserId)`:
`selectFrom('friendships').where(userId).where(friendUserId).executeTakeFirst()`. -/
def selectFriendship (db : Db) (userId friendUserId : Nat) : Option Friendship :=
  db.friendships.find? (fun r => r.userId == userId && r.friendUserId == friendUserId)

/-- `updateTable('friendships').set(status).where(userId).where(friendUserId)`:
rewrite the status of every row matching the ordered pair. -/
def updateFriendshipStatus (db : Db) (userId friendUserId : Nat)
    (status : FriendshipStatus) : Db :=
  { db with
    friendships := db.friendships.map (fun r =>
      if r.userId == userId && r.friendUserId == friendUserId then
        { r with status := status }
      else r) }

/-- `insertInto('friendships').values(userId, friendUserId, status)`: append
a row with the next auto-increment id. -/
def insertFriendship (db : Db) (userId friendUserId : Nat)
    (status : FriendshipStatus) : Db :=
  { db with
    friendships := db.friendships ++ [⟨db.nextId, userId, friendUserId, status⟩],
    nextId := db.nextId + 1 }

/-- The `canSendFriendshipRequest` middleware: `BAD_REQUEST` unless a user
row with id `friendUserId` exists.  Side-effect free. -/
def canSendFriendshipRequest (db : Db) (friendUserId : Nat) : Option TRPCError :=
  match db.users.find? (fun u => u.id == friendUserId) with
  | some _ => none
  | none => some (.badRequest none)

/-- The `canAnswerFriendshipRequest` middleware: `BAD_REQUEST` unless a
friendship row `(friendUserId, callerId)` with status `requested` exists.
Side-effect free. -/
def canAnswerFriendshipRequest (db : Db) (callerId friendUserId : Nat) :
    Option TRPCError :=
  match db.friendships.find? (fun r =>
      r.userId == friendUserId && r.friendUserId == callerId
        && r.status == .requested) with
  | some _ => none
  | none => some (.badRequest none)

/-- The message of the combined error thrown by
`checkAndUpdateFriendshipRequest` when the existing edge is neither absent
nor `declined`. -/
def duplicateOrAcceptedMessage : String :=
  "Yêu cầu kết bạn đã tồn tại hoặc đã được chấp nhận."

/-- `checkAndUpdateFriendshipRequest(ctx, userId, friendUserId)`: look up
the edge `(userId, friendUserId)`; if it exists with status `declined`,
update it back to `requested`; if it exists with any other status, throw
`BAD_REQUEST` with the combined message; if it does not exist, insert a
fresh `requested` edge. -/
def checkAndUpdateFriendshipRequest (db : Db) (userId friendUserId : Nat) :
    Option TRPCError × Db :=
  match selectFriendship db userId friendUserId with
  | some existingFriendship =>
    if existingFriendship.status = .declined then
      (none, updateFriendshipStatus db userId friendUserId .requested)
    else
      (some (.badRequest (some duplicateOrAcceptedMessage)), db)
  | none => (none, insertFriendship db userId friendUserId .requested)

/-- The `send` mutation: the `canSendFriendshipRequest` guard, then
`checkAndUpdateFriendshipRequest(ctx, ctx.session.userId, input.friendUserId)`. -/
def send (db : Db) (callerId friendUserId : Nat) : Option TRPCError × Db :=
  match canSendFriendshipRequest db friendUserId with
  | some e => (some e, db)
  | none => checkAndUpdateFriendshipRequest db callerId friendUserId

/-- `acceptFriendshipRequest(t, userId, friendUserId)`, the transaction
body of `accept`: set edge `(friendUserId, userId)` to `accepted`; then
look up the mirror edge `(userId, friendUserId)` and either set its status
to `accepted` or insert it fresh with status `accepted`. -/
def acceptFriendshipRequest (db : Db) (userId friendUserId : Nat) : Db :=
  let db1 := updateFriendshipStatus db friendUserId userId .accepted
  match selectFriendship db1 userId friendUserId with
  | some _ => updateFriendshipStatus db1 userId friendUserId .accepted
  | none => insertFriendship db1 userId friendUserId .accepted

/-- The `accept` mutation: the `canAnswerFriendshipRequest` guard, then
`acceptFriendshipRequest` inside a transaction (the body cannot throw, so
the transaction always commits). -/
def accept (db : Db) (callerId friendUserId : Nat) : Option TRPCError × Db :=
  match canAnswerFriendshipRequest db callerId friendUserId with
  | some e => (some e, db)
  | none => (none, acceptFriendshipRequest db callerId friendUserId)

/-- The `decline` mutation: the `canAnswerFriendshipRequest` guard, then
`updateTable('friendships').set(declined).where(userId = input.friendUserId)
.where(friendUserId = ctx.session.userId)`. -/
def decline (db : Db) (callerId friendUserId : Nat) : Option TRPCError × Db :=
  match canAnswerFriendshipRequest db callerId friendUserId with
  | some e => (some e, db)
  | none => (none, updateFriendshipStatus db friendUserId callerId .declined)

/-- The friend-info read model returned by `getById`. -/
structure FriendInfo where
  id : Nat
  fullName : String
  phoneNumber : String
  totalFriendCount : Nat
  mutualFriendCount : Nat
deriving DecidableEq, Repr

/-- The mutual-friend count query of `getById`: the self-join of
`friendships as f1` with `friendships as f2` on
`f1.friendUserId = f2.friendUserId`, restricted to `f1.userId = callerId`,
`f2.userId = friendUserId` and both statuses `accepted`, counted. -/
def mutualFriendCountQuery (db : Db) (callerId friendUserId : Nat) : Nat :=
  ((db.friendships.filter (fun r1 =>
      r1.userId == callerId && r1.status == .accepted)).map (fun r1 =>
    (db.friendships.filter (fun r2 =>
        r2.userId == friendUserId && r2.status == .accepted
          && r1.friendUserId == r2.friendUserId)).length)).sum

/-- The grouped subquery `userTotalFriendCount`: for a given user id, the
number of `accepted` rows with that `userId`.  The subquery produces a
group row only when this count is positive. -/
def userTotalFriendCount (db : Db) (userId : Nat) : Nat :=
  (db.friendships.filter (fun r =>
    r.status == .accepted && r.userId == userId)).length

/-- `myFriendRouter.getById`: the mutual-count query, then the main query
joining `users` with the `accepted` edge `(callerId, friendUserId)` and the
grouped total-count subquery; the inner join against the grouped subquery
drops users with zero accepted rows, and a missing join row throws
`NOT_FOUND`. -/
def getById (db : Db) (callerId friendUserId : Nat) : Except TRPCError FriendInfo :=
  let mutualCount := mutualFriendCountQuery db callerId friendUserId
  match db.users.find? (fun u => u.id == friendUserId),
        db.friendships.find? (fun r =>
          r.userId == callerId && r.friendUserId == friendUserId
            && r.status == .accepted) with
  | some friend, some _ =>
    let total := userTotalFriendCount db friendUserId
    if total = 0 then .error .notFound
    else .ok ⟨friend.id, friend.fullName, friend.phoneNumber, total, mutualCount⟩
  | _, _ => .error .notFound

/-- The status the point lookup of `(userId, friendUserId)` reports, if the
edge exists. -/
def statusOf (db : Db) (userId friendUserId : Nat) : Option FriendshipStatus :=
  (selectFriendship db userId friendUserId).map (fun r => r.status)

/-- All rows of the `friendships` table carrying the ordered pair
`(userId, friendUserId)`. -/
def pairRows (db : Db) (userId friendUserId : Nat) : List Friendship :=
  db.friendships.filter (fun r => r.userId == userId && r.friendUserId == friendUserId)

/-- The ordered pairs carried by the rows of the `friendships` table. -/
def pairKeys (db : Db) : List (Nat × Nat) :=
  db.friendships.map (fun r => (r.userId, r.friendUserId))

/-- The uniqueness constraint of the data model: at most one friendship
row per ordered pair `(userId, friendUserId)`. -/
def UniquePairs (db : Db) : Prop := (pairKeys db).Nodup

/-- The accepted-outbound set of a user: the `friendUserId`s of the
`accepted` rows whose `userId` is the given user. -/
def acceptedOutbound (db : Db) (userId : Nat) : List Nat :=
  (db.friendships.filter (fun r => r.userId == userId && r.status == .accepted)).map
    (fun r => r.friendUserId)

/-- The non-status fields of a friendship row. -/
def rowIdentity (r : Friendship) : Nat × Nat × Nat := (r.id, r.userId, r.friendUserId)

theorem users_updateFriendshipStatus (db : Db) (u f : Nat) (st : FriendshipStatus) :
    (updateFriendshipStatus db u f st).users = db.users := rfl

theorem users_insertFriendship (db : Db) (u f : Nat) (st : FriendshipStatus) :
    (insertFriendship db u f st).users = db.users := rfl

theorem selectFriendship_updateFriendshipStatus (db : Db) (u f u' f' : Nat)
    (st : FriendshipStatus) :
    selectFriendship (updateFriendshipStatus db u f st) u' f' =
      (selectFriendship db u' f').map (fun r =>
        if r.userId == u && r.friendUserId == f then { r with status := st } else r) := by
  have hpg : ((fun r : Friendship => r.userId == u' && r.friendUserId == f') ∘
      (fun r : Friendship =>
        if r.userId == u && r.friendUserId == f then { r with status := st } else r)) =
      (fun r : Friendship => r.userId == u' && r.friendUserId == f') := by
    funext r
    by_cases hc : (r.userId == u && r.friendUserId == f) = true <;>
      simp [Function.comp, hc]
  show (db.friendships.map _).find? _ = _
  rw [List.find?_map, hpg]
  rfl

theorem statusOf_updateFriendshipStatus_self (db : Db) (u f : Nat)
    (st : FriendshipStatus) (h : (statusOf db u f).isSome) :
    statusOf (updateFriendshipStatus db u f st) u f = some st := by
  unfold statusOf at h ⊢
  rw [selectFriendship_updateFriendshipStatus]
  cases hfind : selectFriendship db u f with
  | none => rw [hfind] at h; simp at h
  | some r =>
    have hc := List.find?_some hfind
    simp only [Bool.and_eq_true, beq_iff_eq] at hc
    simp [hc.1, hc.2]

theorem selectFriendship_updateFriendshipStatus_ne (db : Db) (u f u' f' : Nat)
    (st : FriendshipStatus) (h : (u, f) ≠ (u', f')) :
    selectFriendship (updateFriendshipStatus db u f st) u' f' =
      selectFriendship db u' f' := by
  rw [selectFriendship_updateFriendshipStatus]
  cases hfind : selectFriendship db u' f' with
  | none => rfl
  | some r =>
    have hp := List.find?_some hfind
    simp only [Bool.and_eq_true, beq_iff_eq] at hp
    have hcond : (r.userId == u && r.friendUserId == f) = false := by
      cases hb : (r.userId == u && r.friendUserId == f) with
      | false => rfl
      | true =>
        simp only [Bool.and_eq_true, beq_iff_eq] at hb
        exact absurd (by rw [← hb.1, ← hb.2, hp.1, hp.2]) h
    have hnot : ¬((r.userId == u && r.friendUserId == f) = true) := by
      rw [hcond]; exact Bool.false_ne_true
    show some (if (r.userId == u && r.friendUserId == f) = true then
        { r with status := st } else r) = some r
    rw [if_neg hnot]

theorem selectFriendship_insertFriendship_self (db : Db) (u f : Nat)
    (st : FriendshipStatus) (h : selectFriendship db u f = none) :
    selectFriendship (insertFriendship db u f st) u f =
      some ⟨db.nextId, u, f, st⟩ := by
  show ((db.friendships ++ _).find? _) = _
  rw [List.find?_append]
  unfold selectFriendship at h
  rw [h]
  simp [List.find?_singleton]

theorem selectFriendship_insertFriendship_ne (db : Db) (u f u' f' : Nat)
    (st : FriendshipStatus) (h : (u, f) ≠ (u', f')) :
    selectFriendship (insertFriendship db u f st) u' f' =
      selectFriendship db u' f' := by
  have hfalse : ((u : Nat) == u' && (f : Nat) == f') = false := by
    cases hb : ((u : Nat) == u' && (f : Nat) == f') with
    | false => rfl
    | true =>
      simp only [Bool.and_eq_true, beq_iff_eq] at hb
      exact absurd (by rw [hb.1, hb.2]) h
  have hone : ([(⟨db.nextId, u, f, st⟩ : Friendship)].find? (fun r =>
      r.userId == u' && r.friendUserId == f')) = none := by
    rw [List.find?_singleton]
    simp only [show ((⟨db.nextId, u, f, st⟩ : Friendship).userId == u'
      && (⟨db.nextId, u, f, st⟩ : Friendship).friendUserId == f') = false from hfalse]
    simp
  show ((db.friendships ++ _).find? _) = _
  rw [List.find?_append, hone, Option.or_none]
  rfl

theorem map_filter_eq_of_eq_on {α : Type} (g : α → α) (p : α → Bool) (l : List α)
    (hpg : ∀ a, p (g a) = p a) (hid : ∀ a, p a = true → g a = a) :
    (l.map g).filter p = l.filter p := by
  induction l with
  | nil => rfl
  | cons x xs ih =>
    simp only [List.map_cons, List.filter_cons, hpg x]
    cases hx : p x with
    | true => rw [hid x hx]; simp [ih]
    | false => simp [ih]

theorem pairRows_updateFriendshipStatus_ne (db : Db) (u f u' f' : Nat)
    (st : FriendshipStatus) (h : (u, f) ≠ (u', f')) :
    pairRows (updateFriendshipStatus db u f st) u' f' = pairRows db u' f' := by
  show (db.friendships.map _).filter _ = _
  apply map_filter_eq_of_eq_on
  · intro r
    by_cases hc : (r.userId == u && r.friendUserId == f) = true <;> simp [hc]
  · intro r hp
    simp only [Bool.and_eq_true, beq_iff_eq] at hp
    rw [if_neg]
    intro hc
    simp only [Bool.and_eq_true, beq_iff_eq] at hc
    exact h (by rw [← hc.1, ← hc.2, hp.1, hp.2])

theorem pairRows_updateFriendshipStatus_self (db : Db) (u f : Nat)
    (st : FriendshipStatus) :
    pairRows (updateFriendshipStatus db u f st) u f =
      (pairRows db u f).map (fun r => { r with status := st }) := by
  have hpg : ((fun r : Friendship => r.userId == u && r.friendUserId == f) ∘
      (fun r : Friendship =>
        if r.userId == u && r.friendUserId == f then { r with status := st } else r)) =
      (fun r : Friendship => r.userId == u && r.friendUserId == f) := by
    funext r
    by_cases hc : (r.userId == u && r.friendUserId == f) = true <;>
      simp [Function.comp, hc]
  show (db.friendships.map _).filter _ = _
  rw [List.filter_map, hpg]
  apply List.map_congr_left
  intro r hr
  have hp := List.of_mem_filter hr
  rw [if_pos hp]

theorem pairRows_insertFriendship_ne (db : Db) (u f u' f' : Nat)
    (st : FriendshipStatus) (h : (u, f) ≠ (u', f')) :
    pairRows (insertFriendship db u f st) u' f' = pairRows db u' f' := by
  show (db.friendships ++ _).filter _ = _
  rw [List.filter_append]
  have hone : ([(⟨db.nextId, u, f, st⟩ : Friendship)].filter (fun r =>
      r.userId == u' && r.friendUserId == f')) = [] := by
    rw [List.filter_eq_nil_iff]
    intro r hr
    rw [List.mem_singleton] at hr
    subst hr
    intro hc
    simp only [Bool.and_eq_true, beq_iff_eq] at hc
    exact h (by rw [← hc.1, ← hc.2])
  rw [hone, List.append_nil]
  rfl

theorem pairKeys_updateFriendshipStatus (db : Db) (u f : Nat)
    (st : FriendshipStatus) :
    pairKeys (updateFriendshipStatus db u f st) = pairKeys db := by
  show (db.friendships.map _).map _ = _
  rw [List.map_map]
  apply List.map_congr_left
  intro r _
  by_cases hc : (r.userId == u && r.friendUserId == f) = true <;>
    simp [Function.comp, hc]

theorem pairKeys_insertFriendship (db : Db) (u f : Nat) (st : FriendshipStatus) :
    pairKeys (insertFriendship db u f st) = pairKeys db ++ [(u, f)] := by
  show (db.friendships ++ _).map _ = _
  rw [List.map_append]
  rfl

theorem selectFriendship_eq_none_iff (db : Db) (u f : Nat) :
    selectFriendship db u f = none ↔ (u, f) ∉ pairKeys db := by
  unfold selectFriendship pairKeys
  rw [List.find?_eq_none]
  constructor
  · intro h hmem
    rw [List.mem_map] at hmem
    obtain ⟨r, hr, hkey⟩ := hmem
    apply h r hr
    simp only [Bool.and_eq_true, beq_iff_eq]
    exact ⟨congrArg Prod.fst hkey, congrArg Prod.snd hkey⟩
  · intro h r hr hp
    simp only [Bool.and_eq_true, beq_iff_eq] at hp
    exact h (List.mem_map.mpr ⟨r, hr, by rw [hp.1, hp.2]⟩)

theorem rowIdentity_updateFriendshipStatus (db : Db) (u f : Nat)
    (st : FriendshipStatus) :
    (updateFriendshipStatus db u f st).friendships.map rowIdentity =
      db.friendships.map rowIdentity := by
  show (db.friendships.map _).map _ = _
  rw [List.map_map]
  apply List.map_congr_left
  intro r _
  by_cases hc : (r.userId == u && r.friendUserId == f) = true <;>
    simp [Function.comp, rowIdentity, hc]

theorem rowIdentity_insertFriendship (db : Db) (u f : Nat) (st : FriendshipStatus) :
    (insertFriendship db u f st).friendships.map rowIdentity =
      db.friendships.map rowIdentity ++ [(db.nextId, u, f)] := by
  show (db.friendships ++ _).map _ = _
  rw [List.map_append]
  rfl

theorem statusOf_eq_of_select_eq {db db' : Db} {u f : Nat}
    (h : selectFriendship db u f = selectFriendship db' u f) :
    statusOf db u f = statusOf db' u f := by
  unfold statusOf
  rw [h]

theorem statusOf_insertFriendship_self (db : Db) (u f : Nat) (st : FriendshipStatus)
    (h : selectFriendship db u f = none) :
    statusOf (insertFriendship db u f st) u f = some st := by
  unfold statusOf
  rw [selectFriendship_insertFriendship_self db u f st h]
  rfl

/-- C1: after a successful `accept(callerId, requesterId)` — whose guard
requires edge `(requesterId, callerId)` to be `requested` — both the edge
`(requesterId, callerId)` and the mirror edge `(callerId, requesterId)`
read as `accepted`, whatever the mirror edge was before (absent,
`requested`, `declined` or `accepted`). -/
theorem accept_makes_both_accepted (db db' : Db) (callerId requesterId : Nat)
    (h : accept db callerId requesterId = (none, db')) :
    statusOf db' requesterId callerId = some .accepted ∧
    statusOf db' callerId requesterId = some .accepted := by
  unfold accept at h
  cases hg : canAnswerFriendshipRequest db callerId requesterId with
  | some e =>
    rw [hg] at h
    rw [Prod.mk.injEq] at h
    exact absurd h.1 (by simp)
  | none =>
    rw [hg] at h
    rw [Prod.mk.injEq] at h
    have hbody : acceptFriendshipRequest db callerId requesterId = db' := h.2
    have hsome : (selectFriendship db requesterId callerId).isSome := by
      unfold canAnswerFriendshipRequest at hg
      cases hf : db.friendships.find? (fun r =>
          r.userId == requesterId && r.friendUserId == callerId
            && r.status == FriendshipStatus.requested) with
      | none => rw [hf] at hg; cases hg
      | some r0 =>
        have hmem := List.mem_of_find?_eq_some hf
        have hp := List.find?_some hf
        simp only [Bool.and_eq_true, beq_iff_eq] at hp
        unfold selectFriendship
        rw [List.find?_isSome]
        exact ⟨r0, hmem, by simp [hp.1.1, hp.1.2]⟩
    simp only [acceptFriendshipRequest] at hbody
    have hst1 : statusOf (updateFriendshipStatus db requesterId callerId .accepted)
        requesterId callerId = some .accepted := by
      apply statusOf_updateFriendshipStatus_self
      unfold statusOf
      cases hs : selectFriendship db requesterId callerId with
      | none => rw [hs] at hsome; simp at hsome
      | some rr => rfl
    by_cases hcr : callerId = requesterId
    · subst hcr
      cases hm : selectFriendship
          (updateFriendshipStatus db callerId callerId .accepted) callerId callerId with
      | none =>
        exfalso
        unfold statusOf at hst1
        rw [hm] at hst1
        simp at hst1
      | some rm =>
        rw [hm] at hbody
        have hbody2 : updateFriendshipStatus
            (updateFriendshipStatus db callerId callerId .accepted)
            callerId callerId .accepted = db' := hbody
        subst hbody2
        have : statusOf (updateFriendshipStatus
            (updateFriendshipStatus db callerId callerId .accepted)
            callerId callerId .accepted) callerId callerId = some .accepted := by
          apply statusOf_updateFriendshipStatus_self
          rw [hst1]
          rfl
        exact ⟨this, this⟩
    · have hpairne : ((callerId, requesterId) : Nat × Nat) ≠ (requesterId, callerId) := by
        intro he
        exact hcr (congrArg Prod.fst he)
      cases hm : selectFriendship
          (updateFriendshipStatus db requesterId callerId .accepted)
          callerId requesterId with
      | some rm =>
        rw [hm] at hbody
        have hbody2 : updateFriendshipStatus
            (updateFriendshipStatus db requesterId callerId .accepted)
            callerId requesterId .accepted = db' := hbody
        subst hbody2
        constructor
        · rw [statusOf_eq_of_select_eq
            (selectFriendship_updateFriendshipStatus_ne _ callerId requesterId
              requesterId callerId .accepted hpairne)]
          exact hst1
        · apply statusOf_updateFriendshipStatus_self
          unfold statusOf
          rw [hm]
          rfl
      | none =>
        rw [hm] at hbody
        have hbody2 : insertFriendship
            (updateFriendshipStatus db requesterId callerId .accepted)
            callerId requesterId .accepted = db' := hbody
        subst hbody2
        constructor
        · rw [statusOf_eq_of_select_eq
            (selectFriendship_insertFriendship_ne _ callerId requesterId
              requesterId callerId .accepted hpairne)]
          exact hst1
        · exact statusOf_insertFriendship_self _ callerId requesterId .accepted hm

theorem accept_makes_both_accepted_witness :
    accept ⟨[⟨1, "a", "p"⟩, ⟨2, "b", "q"⟩], [⟨0, 1, 2, .requested⟩], 1⟩ 2 1 =
      (none, ⟨[⟨1, "a", "p"⟩, ⟨2, "b", "q"⟩],
        [⟨0, 1, 2, .accepted⟩, ⟨1, 2, 1, .accepted⟩], 2⟩) ∧
    statusOf ⟨[⟨1, "a", "p"⟩, ⟨2, "b", "q"⟩],
      [⟨0, 1, 2, .accepted⟩, ⟨1, 2, 1, .accepted⟩], 2⟩ 1 2 = some .accepted ∧
    statusOf ⟨[⟨1, "a", "p"⟩, ⟨2, "b", "q"⟩],
      [⟨0, 1, 2, .accepted⟩, ⟨1, 2, 1, .accepted⟩], 2⟩ 2 1 = some .accepted :=
  ⟨by decide,
    (accept_makes_both_accepted
      ⟨[⟨1, "a", "p"⟩, ⟨2, "b", "q"⟩], [⟨0, 1, 2, .requested⟩], 1⟩
      ⟨[⟨1, "a", "p"⟩, ⟨2, "b", "q"⟩],
        [⟨0, 1, 2, .accepted⟩, ⟨1, 2, 1, .accepted⟩], 2⟩ 2 1 (by decide)).1,
    (accept_makes_both_accepted
      ⟨[⟨1, "a", "p"⟩, ⟨2, "b", "q"⟩], [⟨0, 1, 2, .requested⟩], 1⟩
      ⟨[⟨1, "a", "p"⟩, ⟨2, "b", "q"⟩],
        [⟨0, 1, 2, .accepted⟩, ⟨1, 2, 1, .accepted⟩], 2⟩ 2 1 (by decide)).2⟩

/-- C4: `accept` and `decline` both fail with the guard's `BAD_REQUEST`
error and leave the store untouched whenever no edge
`(requesterId, callerId)` with status exactly `requested` exists. -/
theorem answer_requires_pending_request (db : Db) (callerId requesterId : Nat)
    (h : ∀ r ∈ db.friendships, ¬(r.userId = requesterId ∧ r.friendUserId = callerId
      ∧ r.status = FriendshipStatus.requested)) :
    accept db callerId requesterId = (some (.badRequest none), db) ∧
    decline db callerId requesterId = (some (.badRequest none), db) := by
  have hg : canAnswerFriendshipRequest db callerId requesterId =
      some (.badRequest none) := by
    unfold canAnswerFriendshipRequest
    have hnone : db.friendships.find? (fun r =>
        r.userId == requesterId && r.friendUserId == callerId
          && r.status == FriendshipStatus.requested) = none := by
      rw [List.find?_eq_none]
      intro r hr hp
      simp only [Bool.and_eq_true, beq_iff_eq] at hp
      exact h r hr ⟨hp.1.1, hp.1.2, hp.2⟩
    rw [hnone]
  constructor
  · unfold accept
    rw [hg]
  · unfold decline
    rw [hg]

theorem answer_requires_pending_request_witness :
    (∀ r ∈ (⟨[], [], 0⟩ : Db).friendships, ¬(r.userId = 1 ∧ r.friendUserId = 2
      ∧ r.status = FriendshipStatus.requested)) ∧
    accept ⟨[], [], 0⟩ 2 1 = (some (.badRequest none), ⟨[], [], 0⟩) ∧
    decline ⟨[], [], 0⟩ 2 1 = (some (.badRequest none), ⟨[], [], 0⟩) :=
  ⟨by decide,
    (answer_requires_pending_request ⟨[], [], 0⟩ 2 1 (by decide)).1,
    (answer_requires_pending_request ⟨[], [], 0⟩ 2 1 (by decide)).2⟩

/-- C9: a mutation that reports an error leaves the friendships state
exactly as it was — every throw site of `send`, `accept` and `decline`
precedes every write. -/
theorem failed_mutation_no_effect (db : Db) (a b c d e f : Nat) :
    ((send db a b).1.isSome → (send db a b).2 = db) ∧
    ((accept db c d).1.isSome → (accept db c d).2 = db) ∧
    ((decline db e f).1.isSome → (decline db e f).2 = db) := by
  refine ⟨?_, ?_, ?_⟩
  · unfold send
    split
    · intro _; rfl
    · unfold checkAndUpdateFriendshipRequest
      split
      · split
        · intro hcontra; simp at hcontra
        · intro _; rfl
      · intro hcontra; simp at hcontra
  · unfold accept
    cases canAnswerFriendshipRequest db c d with
    | some e => intro _; rfl
    | none =>
      intro hcontra
      simp at hcontra
  · unfold decline
    cases canAnswerFriendshipRequest db e f with
    | some e => intro _; rfl
    | none =>
      intro hcontra
      simp at hcontra

theorem failed_mutation_no_effect_witness :
    (send ⟨[], [], 0⟩ 1 2).1.isSome = true ∧ (send ⟨[], [], 0⟩ 1 2).2 = ⟨[], [], 0⟩ ∧
    (accept ⟨[], [], 0⟩ 1 2).1.isSome = true ∧
    (accept ⟨[], [], 0⟩ 1 2).2 = ⟨[], [], 0⟩ ∧
    (decline ⟨[], [], 0⟩ 1 2).1.isSome = true ∧
    (decline ⟨[], [], 0⟩ 1 2).2 = ⟨[], [], 0⟩ :=
  ⟨by decide,
    (failed_mutation_no_effect ⟨[], [], 0⟩ 1 2 1 2 1 2).1 (by decide),
    by decide,
    (failed_mutation_no_effect ⟨[], [], 0⟩ 1 2 1 2 1 2).2.1 (by decide),
    by decide,
    (failed_mutation_no_effect ⟨[], [], 0⟩ 1 2 1 2 1 2).2.2 (by decide)⟩

/-- C10: every mutation rewrites at most the `status` field of existing
rows and only ever appends rows: the `(id, userId, friendUserId)` identity
of every pre-existing row survives, in order, at the front of the table. -/
theorem mutations_write_only_status (db : Db) (a b c d e f : Nat) :
    (∃ new, (send db a b).2.friendships.map rowIdentity =
      db.friendships.map rowIdentity ++ new) ∧
    (∃ new, (accept db c d).2.friendships.map rowIdentity =
      db.friendships.map rowIdentity ++ new) ∧
    (∃ new, (decline db e f).2.friendships.map rowIdentity =
      db.friendships.map rowIdentity ++ new) := by
  refine ⟨?_, ?_, ?_⟩
  · unfold send
    split
    · exact ⟨[], by rw [List.append_nil]⟩
    · unfold checkAndUpdateFriendshipRequest
      split
      · split
        · exact ⟨[], by
            rw [List.append_nil]
            exact rowIdentity_updateFriendshipStatus db a b .requested⟩
        · exact ⟨[], by rw [List.append_nil]⟩
      · exact ⟨[(db.nextId, a, b)], rowIdentity_insertFriendship db a b .requested⟩
  · unfold accept
    cases canAnswerFriendshipRequest db c d with
    | some e => exact ⟨[], by rw [List.append_nil]⟩
    | none =>
      simp only [acceptFriendshipRequest]
      cases selectFriendship (updateFriendshipStatus db d c .accepted) c d with
      | some r =>
        refine ⟨[], ?_⟩
        rw [List.append_nil, rowIdentity_updateFriendshipStatus,
          rowIdentity_updateFriendshipStatus]
      | none =>
        refine ⟨[((updateFriendshipStatus db d c .accepted).nextId, c, d)], ?_⟩
        rw [rowIdentity_insertFriendship, rowIdentity_updateFriendshipStatus]
  · unfold decline
    cases canAnswerFriendshipRequest db e f with
    | some e => exact ⟨[], by rw [List.append_nil]⟩
    | none =>
      exact ⟨[], by
        rw [List.append_nil]
        exact rowIdentity_updateFriendshipStatus db f e .declined⟩

/-- C5 fails on the code: no guard compares the caller to the target, so a
user who exists can send a friendship request to themselves, and the
resulting state holds an edge with `userId = friendUserId`, violating
invariant I1. -/
theorem send_to_self_creates_self_edge :
    (∀ r ∈ (⟨[⟨1, "a", "p"⟩], [], 0⟩ : Db).friendships, r.userId ≠ r.friendUserId) ∧
    (send ⟨[⟨1, "a", "p"⟩], [], 0⟩ 1 1).1 = none ∧
    (send ⟨[⟨1, "a", "p"⟩], [], 0⟩ 1 1).2.friendships.any
      (fun r => r.userId == r.friendUserId) = true := by
  decide

theorem send_ok_check (db db' : Db) (a b : Nat) (h : send db a b = (none, db')) :
    canSendFriendshipRequest db b = none ∧
    checkAndUpdateFriendshipRequest db a b = (none, db') := by
  unfold send at h
  cases hg : canSendFriendshipRequest db b with
  | some e =>
    rw [hg] at h
    rw [Prod.mk.injEq] at h
    exact absurd h.1 (by simp)
  | none =>
    rw [hg] at h
    exact ⟨rfl, h⟩

theorem checkAndUpdate_ok_status (db db' : Db) (u f : Nat)
    (h : checkAndUpdateFriendshipRequest db u f = (none, db')) :
    statusOf db' u f = some FriendshipStatus.requested := by
  unfold checkAndUpdateFriendshipRequest at h
  split at h
  next r hsel =>
    split at h
    next hd =>
      rw [Prod.mk.injEq] at h
      rw [← h.2]
      apply statusOf_updateFriendshipStatus_self
      unfold statusOf
      rw [hsel]
      rfl
    next hd =>
      rw [Prod.mk.injEq] at h
      exact absurd h.1 (by simp)
  next hsel =>
    rw [Prod.mk.injEq] at h
    rw [← h.2]
    exact statusOf_insertFriendship_self db u f FriendshipStatus.requested hsel

theorem checkAndUpdate_users (db : Db) (u f : Nat) :
    (checkAndUpdateFriendshipRequest db u f).2.users = db.users := by
  unfold checkAndUpdateFriendshipRequest
  split
  · split
    · rfl
    · rfl
  · rfl

theorem decline_ok (db db' : Db) (c f : Nat) (h : decline db c f = (none, db')) :
    db' = updateFriendshipStatus db f c .declined := by
  unfold decline at h
  cases hg : canAnswerFriendshipRequest db c f with
  | some e =>
    rw [hg] at h
    rw [Prod.mk.injEq] at h
    exact absurd h.1 (by simp)
  | none =>
    rw [hg] at h
    rw [Prod.mk.injEq] at h
    exact h.2.symm

/-- C2: once an edge `(A, B)` has been declined by B, a fresh
`send(A, B)` succeeds and the edge reads `requested` again — the
`declined` branch of `checkAndUpdateFriendshipRequest` reopens the same
edge instead of erroring. -/
theorem send_decline_send_succeeds (db db1 db2 : Db) (A B : Nat)
    (h1 : send db A B = (none, db1)) (h2 : decline db1 B A = (none, db2)) :
    ∃ db3, send db2 A B = (none, db3) ∧
      statusOf db3 A B = some FriendshipStatus.requested := by
  obtain ⟨hg1, hchk⟩ := send_ok_check db db1 A B h1
  have hst1 : statusOf db1 A B = some FriendshipStatus.requested :=
    checkAndUpdate_ok_status db db1 A B hchk
  have husers1 : db1.users = db.users := by
    have hu := checkAndUpdate_users db A B
    rw [congrArg Prod.snd hchk] at hu
    exact hu
  have hdb2 : db2 = updateFriendshipStatus db1 A B .declined :=
    decline_ok db1 db2 B A h2
  have hst2 : statusOf db2 A B = some FriendshipStatus.declined := by
    rw [hdb2]
    apply statusOf_updateFriendshipStatus_self
    rw [hst1]
    rfl
  have husers2 : db2.users = db.users := by
    rw [hdb2]
    exact husers1
  have hg2 : canSendFriendshipRequest db2 B = none := by
    unfold canSendFriendshipRequest at hg1 ⊢
    rw [husers2]
    exact hg1
  unfold send
  rw [hg2]
  show ∃ db3, checkAndUpdateFriendshipRequest db2 A B = (none, db3) ∧
    statusOf db3 A B = some FriendshipStatus.requested
  unfold checkAndUpdateFriendshipRequest
  split
  next r hsel2 =>
    have hrst : r.status = FriendshipStatus.declined := by
      unfold statusOf at hst2
      rw [hsel2] at hst2
      simpa using hst2
    rw [if_pos hrst]
    refine ⟨_, rfl, ?_⟩
    apply statusOf_updateFriendshipStatus_self
    rw [hst2]
    rfl
  next hsel2 =>
    unfold statusOf at hst2
    rw [hsel2] at hst2
    simp at hst2

theorem send_decline_send_succeeds_witness :
    send ⟨[⟨1, "a", "p"⟩, ⟨2, "b", "q"⟩], [], 0⟩ 1 2 =
      (none, ⟨[⟨1, "a", "p"⟩, ⟨2, "b", "q"⟩], [⟨0, 1, 2, .requested⟩], 1⟩) ∧
    decline ⟨[⟨1, "a", "p"⟩, ⟨2, "b", "q"⟩], [⟨0, 1, 2, .requested⟩], 1⟩ 2 1 =
      (none, ⟨[⟨1, "a", "p"⟩, ⟨2, "b", "q"⟩], [⟨0, 1, 2, .declined⟩], 1⟩) ∧
    ∃ db3, send ⟨[⟨1, "a", "p"⟩, ⟨2, "b", "q"⟩], [⟨0, 1, 2, .declined⟩], 1⟩ 1 2 =
      (none, db3) ∧ statusOf db3 1 2 = some FriendshipStatus.requested :=
  ⟨by decide, by decide,
    send_decline_send_succeeds
      ⟨[⟨1, "a", "p"⟩, ⟨2, "b", "q"⟩], [], 0⟩
      ⟨[⟨1, "a", "p"⟩, ⟨2, "b", "q"⟩], [⟨0, 1, 2, .requested⟩], 1⟩
      ⟨[⟨1, "a", "p"⟩, ⟨2, "b", "q"⟩], [⟨0, 1, 2, .declined⟩], 1⟩
      1 2 (by decide) (by decide)⟩

theorem pairRows_insertFriendship_self (db : Db) (u f : Nat) (st : FriendshipStatus)
    (h : selectFriendship db u f = none) :
    pairRows (insertFriendship db u f st) u f = [⟨db.nextId, u, f, st⟩] := by
  show (db.friendships ++ _).filter _ = _
  rw [List.filter_append]
  have h1 : db.friendships.filter
      (fun r => r.userId == u && r.friendUserId == f) = [] := by
    rw [List.filter_eq_nil_iff]
    unfold selectFriendship at h
    rw [List.find?_eq_none] at h
    exact h
  rw [h1]
  simp

/-- C3 counterexample: re-sending while the edge is `requested` and
re-sending while it is `accepted` throw the very same `BAD_REQUEST` error
value — a single combined failure, not two distinct typed failures. -/
theorem send_conflict_errors_identical :
    (send ⟨[⟨2, "b", "q"⟩], [⟨0, 1, 2, .requested⟩], 1⟩ 1 2).1 =
      (send ⟨[⟨2, "b", "q"⟩], [⟨0, 1, 2, .accepted⟩], 1⟩ 1 2).1 ∧
    (send ⟨[⟨2, "b", "q"⟩], [⟨0, 1, 2, .requested⟩], 1⟩ 1 2).1 =
      some (.badRequest (some duplicateOrAcceptedMessage)) :=
  ⟨rfl, rfl⟩

theorem send_conflict_of_status (db : Db) (A B : Nat)
    (hg : canSendFriendshipRequest db B = none)
    (hst : statusOf db A B = some FriendshipStatus.requested ∨
      statusOf db A B = some FriendshipStatus.accepted) :
    send db A B = (some (.badRequest (some duplicateOrAcceptedMessage)), db) := by
  unfold send
  rw [hg]
  show checkAndUpdateFriendshipRequest db A B = _
  unfold checkAndUpdateFriendshipRequest
  split
  next r hsel =>
    have hrd : ¬r.status = FriendshipStatus.declined := by
      unfold statusOf at hst
      rw [hsel] at hst
      rcases hst with hst | hst
      · have hr : r.status = FriendshipStatus.requested := by simpa using hst
        rw [hr]
        intro hc
        cases hc
      · have hr : r.status = FriendshipStatus.accepted := by simpa using hst
        rw [hr]
        intro hc
        cases hc
    rw [if_neg hrd]
  next hsel =>
    unfold statusOf at hst
    rw [hsel] at hst
    rcases hst with hst | hst <;> simp at hst

/-- C3 (amended): re-sending while the existing edge `(A, B)` is
`requested` or `accepted` fails, but with one and the same combined
`BAD_REQUEST` error rather than two distinct typed failures; and a second
`send(A, B)` right after a successful one fails with that error and
leaves exactly one `(A, B)` edge. -/
theorem send_twice_single_conflict (db db1 : Db) (A B : Nat)
    (hcount : (pairRows db A B).length ≤ 1)
    (h1 : send db A B = (none, db1)) :
    send db1 A B = (some (.badRequest (some duplicateOrAcceptedMessage)), db1) ∧
    (pairRows db1 A B).length = 1 ∧
    (∀ db2 : Db, statusOf db2 A B = some FriendshipStatus.accepted →
      canSendFriendshipRequest db2 B = none →
      send db2 A B = (some (.badRequest (some duplicateOrAcceptedMessage)), db2)) := by
  obtain ⟨hg, hchk⟩ := send_ok_check db db1 A B h1
  have hst1 : statusOf db1 A B = some FriendshipStatus.requested :=
    checkAndUpdate_ok_status db db1 A B hchk
  have husers : db1.users = db.users := by
    have hu := checkAndUpdate_users db A B
    rw [congrArg Prod.snd hchk] at hu
    exact hu
  have hg1 : canSendFriendshipRequest db1 B = none := by
    unfold canSendFriendshipRequest at hg ⊢
    rw [husers]
    exact hg
  refine ⟨send_conflict_of_status db1 A B hg1 (Or.inl hst1), ?_,
    fun db2 hacc hg2 => send_conflict_of_status db2 A B hg2 (Or.inr hacc)⟩
  unfold checkAndUpdateFriendshipRequest at hchk
  split at hchk
  next r hsel =>
    split at hchk
    next hd =>
      rw [Prod.mk.injEq] at hchk
      rw [← hchk.2, pairRows_updateFriendshipStatus_self, List.length_map]
      have hmem := List.mem_of_find?_eq_some
        (show db.friendships.find? _ = some r from hsel)
      have hp := List.find?_some
        (show db.friendships.find? _ = some r from hsel)
      have hpos : 0 < (pairRows db A B).length := by
        rw [List.length_pos]
        intro hnil
        unfold pairRows at hnil
        rw [List.filter_eq_nil_iff] at hnil
        exact hnil r hmem hp
      omega
    next hd =>
      rw [Prod.mk.injEq] at hchk
      exact absurd hchk.1 (by simp)
  next hsel =>
    rw [Prod.mk.injEq] at hchk
    rw [← hchk.2, pairRows_insertFriendship_self db A B FriendshipStatus.requested hsel]
    rfl

theorem send_twice_single_conflict_witness :
    (pairRows ⟨[⟨2, "b", "q"⟩], [], 0⟩ 1 2).length ≤ 1 ∧
    send ⟨[⟨2, "b", "q"⟩], [], 0⟩ 1 2 =
      (none, ⟨[⟨2, "b", "q"⟩], [⟨0, 1, 2, .requested⟩], 1⟩) ∧
    send ⟨[⟨2, "b", "q"⟩], [⟨0, 1, 2, .requested⟩], 1⟩ 1 2 =
      (some (.badRequest (some duplicateOrAcceptedMessage)),
        ⟨[⟨2, "b", "q"⟩], [⟨0, 1, 2, .requested⟩], 1⟩) ∧
    (pairRows ⟨[⟨2, "b", "q"⟩], [⟨0, 1, 2, .requested⟩], 1⟩ 1 2).length = 1 ∧
    send ⟨[⟨2, "b", "q"⟩], [⟨0, 1, 2, .accepted⟩], 1⟩ 1 2 =
      (some (.badRequest (some duplicateOrAcceptedMessage)),
        ⟨[⟨2, "b", "q"⟩], [⟨0, 1, 2, .accepted⟩], 1⟩) :=
  ⟨by decide, by decide,
    (send_twice_single_conflict ⟨[⟨2, "b", "q"⟩], [], 0⟩
      ⟨[⟨2, "b", "q"⟩], [⟨0, 1, 2, .requested⟩], 1⟩ 1 2
      (by decide) (by decide)).1,
    (send_twice_single_conflict ⟨[⟨2, "b", "q"⟩], [], 0⟩
      ⟨[⟨2, "b", "q"⟩], [⟨0, 1, 2, .requested⟩], 1⟩ 1 2
      (by decide) (by decide)).2.1,
    (send_twice_single_conflict ⟨[⟨2, "b", "q"⟩], [], 0⟩
      ⟨[⟨2, "b", "q"⟩], [⟨0, 1, 2, .requested⟩], 1⟩ 1 2
      (by decide) (by decide)).2.2
      ⟨[⟨2, "b", "q"⟩], [⟨0, 1, 2, .accepted⟩], 1⟩ (by decide) (by decide)⟩

/-- C6: for distinct users, `send(A, B)` never touches the mirror rows
`(B, A)` in any branch, `decline(B, A)` writes only the `(A, B)` edge and
leaves the `(B, A)` rows unchanged, and after `send(A, B)` followed by a
decline by B no `(B, A)` row exists if none existed before. -/
theorem send_decline_leave_mirror_unchanged (db : Db) (A B : Nat) (h : A ≠ B) :
    pairRows (send db A B).2 B A = pairRows db B A ∧
    pairRows (decline db B A).2 B A = pairRows db B A ∧
    (pairRows db B A = [] →
      pairRows (decline (send db A B).2 B A).2 B A = []) := by
  have hpairne : ((A, B) : Nat × Nat) ≠ (B, A) := by
    intro he
    exact h (congrArg Prod.fst he)
  have hsend : ∀ dbx : Db, pairRows (send dbx A B).2 B A = pairRows dbx B A := by
    intro dbx
    unfold send
    split
    · rfl
    · unfold checkAndUpdateFriendshipRequest
      split
      · split
        · exact pairRows_updateFriendshipStatus_ne dbx A B B A .requested hpairne
        · rfl
      · exact pairRows_insertFriendship_ne dbx A B B A .requested hpairne
  have hdecl : ∀ dbx : Db, pairRows (decline dbx B A).2 B A = pairRows dbx B A := by
    intro dbx
    unfold decline
    split
    · rfl
    · exact pairRows_updateFriendshipStatus_ne dbx A B B A .declined hpairne
  refine ⟨hsend db, hdecl db, ?_⟩
  intro hnone
  rw [hdecl (send db A B).2, hsend db, hnone]

theorem send_decline_leave_mirror_unchanged_witness :
    (1 : Nat) ≠ 2 ∧
    pairRows (send ⟨[⟨1, "a", "p"⟩, ⟨2, "b", "q"⟩], [], 0⟩ 1 2).2 2 1 =
      pairRows ⟨[⟨1, "a", "p"⟩, ⟨2, "b", "q"⟩], [], 0⟩ 2 1 ∧
    pairRows (decline ⟨[⟨1, "a", "p"⟩, ⟨2, "b", "q"⟩], [], 0⟩ 2 1).2 2 1 =
      pairRows ⟨[⟨1, "a", "p"⟩, ⟨2, "b", "q"⟩], [], 0⟩ 2 1 ∧
    pairRows ⟨[⟨1, "a", "p"⟩, ⟨2, "b", "q"⟩], [], 0⟩ 2 1 = [] ∧
    pairRows (decline
      (send ⟨[⟨1, "a", "p"⟩, ⟨2, "b", "q"⟩], [], 0⟩ 1 2).2 2 1).2 2 1 = [] :=
  ⟨by decide,
    (send_decline_leave_mirror_unchanged
      ⟨[⟨1, "a", "p"⟩, ⟨2, "b", "q"⟩], [], 0⟩ 1 2 (by decide)).1,
    (send_decline_leave_mirror_unchanged
      ⟨[⟨1, "a", "p"⟩, ⟨2, "b", "q"⟩], [], 0⟩ 1 2 (by decide)).2.1,
    by decide,
    (send_decline_leave_mirror_unchanged
      ⟨[⟨1, "a", "p"⟩, ⟨2, "b", "q"⟩], [], 0⟩ 1 2 (by decide)).2.2 (by decide)⟩

/-- C7: each of `send`, `accept` and `decline` preserves the uniqueness
of the ordered pair `(userId, friendUserId)` across the friendships
table: updates keep the key multiset, and both insert sites run only when
the lookup for that exact pair found nothing. -/
theorem mutations_preserve_unique_pairs (db : Db) (a b c d e f : Nat)
    (h : UniquePairs db) :
    UniquePairs (send db a b).2 ∧ UniquePairs (accept db c d).2 ∧
    UniquePairs (decline db e f).2 := by
  refine ⟨?_, ?_, ?_⟩
  · unfold send
    split
    · exact h
    · unfold checkAndUpdateFriendshipRequest
      split
      next r hsel =>
        split
        · show UniquePairs (updateFriendshipStatus db a b .requested)
          unfold UniquePairs
          rw [pairKeys_updateFriendshipStatus]
          exact h
        · exact h
      next hsel =>
        show UniquePairs (insertFriendship db a b .requested)
        unfold UniquePairs
        rw [pairKeys_insertFriendship, List.nodup_append]
        refine ⟨h, List.nodup_singleton _, ?_⟩
        intro x hx hmem
        rw [List.mem_singleton] at hmem
        subst hmem
        exact (selectFriendship_eq_none_iff db a b).mp hsel hx
  · unfold accept
    split
    · exact h
    · show UniquePairs (acceptFriendshipRequest db c d)
      simp only [acceptFriendshipRequest]
      cases hsel : selectFriendship (updateFriendshipStatus db d c .accepted) c d with
      | some r =>
        show UniquePairs (updateFriendshipStatus
          (updateFriendshipStatus db d c .accepted) c d .accepted)
        unfold UniquePairs
        rw [pairKeys_updateFriendshipStatus, pairKeys_updateFriendshipStatus]
        exact h
      | none =>
        show UniquePairs (insertFriendship
          (updateFriendshipStatus db d c .accepted) c d .accepted)
        unfold UniquePairs
        rw [pairKeys_insertFriendship, List.nodup_append]
        refine ⟨?_, List.nodup_singleton _, ?_⟩
        · rw [pairKeys_updateFriendshipStatus]
          exact h
        · intro x hx hmem
          rw [List.mem_singleton] at hmem
          subst hmem
          exact (selectFriendship_eq_none_iff _ c d).mp hsel hx
  · unfold decline
    split
    · exact h
    · show UniquePairs (updateFriendshipStatus db f e .declined)
      unfold UniquePairs
      rw [pairKeys_updateFriendshipStatus]
      exact h

theorem mutations_preserve_unique_pairs_witness :
    UniquePairs ⟨[⟨2, "b", "q"⟩], [⟨0, 1, 2, .requested⟩], 1⟩ ∧
    UniquePairs (send ⟨[⟨2, "b", "q"⟩], [⟨0, 1, 2, .requested⟩], 1⟩ 1 2).2 ∧
    UniquePairs (accept ⟨[⟨2, "b", "q"⟩], [⟨0, 1, 2, .requested⟩], 1⟩ 2 1).2 ∧
    UniquePairs (decline ⟨[⟨2, "b", "q"⟩], [⟨0, 1, 2, .requested⟩], 1⟩ 2 1).2 :=
  ⟨(by decide : (pairKeys ⟨[⟨2, "b", "q"⟩], [⟨0, 1, 2, .requested⟩], 1⟩).Nodup),
    (mutations_preserve_unique_pairs ⟨[⟨2, "b", "q"⟩], [⟨0, 1, 2, .requested⟩], 1⟩
      1 2 2 1 2 1
      (by decide : (pairKeys ⟨[⟨2, "b", "q"⟩], [⟨0, 1, 2, .requested⟩], 1⟩).Nodup)).1,
    (mutations_preserve_unique_pairs ⟨[⟨2, "b", "q"⟩], [⟨0, 1, 2, .requested⟩], 1⟩
      1 2 2 1 2 1
      (by decide : (pairKeys ⟨[⟨2, "b", "q"⟩], [⟨0, 1, 2, .requested⟩], 1⟩).Nodup)).2.1,
    (mutations_preserve_unique_pairs ⟨[⟨2, "b", "q"⟩], [⟨0, 1, 2, .requested⟩], 1⟩
      1 2 2 1 2 1
      (by decide : (pairKeys ⟨[⟨2, "b", "q"⟩], [⟨0, 1, 2, .requested⟩], 1⟩).Nodup)).2.2⟩

theorem nodup_acceptedOutbound (db : Db) (u : Nat) (h : UniquePairs db) :
    (acceptedOutbound db u).Nodup := by
  unfold UniquePairs pairKeys at h
  unfold acceptedOutbound
  have hsub : ((db.friendships.filter (fun r =>
      r.userId == u && r.status == FriendshipStatus.accepted)).map
        (fun r => (r.userId, r.friendUserId))).Sublist
      (db.friendships.map (fun r => (r.userId, r.friendUserId))) :=
    (List.filter_sublist db.friendships).map _
  have hnd := List.Nodup.sublist hsub h
  have hkey : (db.friendships.filter (fun r =>
      r.userId == u && r.status == FriendshipStatus.accepted)).map
        (fun r => (r.userId, r.friendUserId)) =
      ((db.friendships.filter (fun r =>
        r.userId == u && r.status == FriendshipStatus.accepted)).map
          (fun r => r.friendUserId)).map (fun x => (u, x)) := by
    rw [List.map_map]
    apply List.map_congr_left
    intro r hr
    have hp := List.of_mem_filter hr
    simp only [Bool.and_eq_true, beq_iff_eq] at hp
    simp [Function.comp, hp.1]
  rw [hkey] at hnd
  exact List.Nodup.of_map _ hnd

theorem length_filter_fu_eq (x : Nat) (l : List Friendship)
    (h : (l.map (fun r => r.friendUserId)).Nodup) :
    (l.filter (fun r2 => x == r2.friendUserId)).length =
      if x ∈ l.map (fun r => r.friendUserId) then 1 else 0 := by
  induction l with
  | nil => simp
  | cons r rs ih =>
    rw [List.map_cons, List.nodup_cons] at h
    rw [List.map_cons]
    by_cases hx : x = r.friendUserId
    · subst hx
      rw [List.filter_cons, if_pos (beq_self_eq_true _), List.length_cons,
        ih h.2, if_neg h.1, if_pos (List.mem_cons_self _ _)]
    · have hbeq : (x == r.friendUserId) = false := by
        rw [beq_eq_false_iff_ne]
        exact hx
      rw [List.filter_cons, if_neg (by rw [hbeq]; exact Bool.false_ne_true), ih h.2]
      simp [List.mem_cons, hx]

theorem sum_lengths_eq_inter_card (l2 l1 : List Friendship)
    (h1 : (l1.map (fun r => r.friendUserId)).Nodup)
    (h2 : (l2.map (fun r => r.friendUserId)).Nodup) :
    (l1.map (fun r1 =>
      (l2.filter (fun r2 => r1.friendUserId == r2.friendUserId)).length)).sum =
      ((l1.map (fun r => r.friendUserId)).toFinset ∩
        (l2.map (fun r => r.friendUserId)).toFinset).card := by
  induction l1 with
  | nil => simp
  | cons r rs ih =>
    rw [List.map_cons, List.nodup_cons] at h1
    simp only [List.map_cons, List.sum_cons, List.toFinset_cons]
    rw [ih h1.2, length_filter_fu_eq _ _ h2]
    by_cases hmem : r.friendUserId ∈ l2.map (fun r => r.friendUserId)
    · rw [if_pos hmem,
        Finset.insert_inter_of_mem (by rw [List.mem_toFinset]; exact hmem),
        Finset.card_insert_of_not_mem]
      · omega
      · intro hc
        rw [Finset.mem_inter, List.mem_toFinset] at hc
        exact h1.1 hc.1
    · rw [if_neg hmem,
        Finset.insert_inter_of_not_mem (by rw [List.mem_toFinset]; exact hmem)]
      omega

/-- C8: under the uniqueness constraint, the mutual-friend count computed
by the self-join equals the size of the intersection of the two users'
accepted-outbound sets, and a successful `getById` reports exactly that
count. -/
theorem mutual_count_is_intersection_card (db : Db) (callerId targetId : Nat)
    (h : UniquePairs db) :
    mutualFriendCountQuery db callerId targetId =
      ((acceptedOutbound db callerId).toFinset ∩
        (acceptedOutbound db targetId).toFinset).card ∧
    (∀ info, getById db callerId targetId = Except.ok info →
      info.mutualFriendCount = mutualFriendCountQuery db callerId targetId) := by
  constructor
  · unfold mutualFriendCountQuery
    have hstep : ∀ r1 : Friendship,
        (db.friendships.filter (fun r2 =>
          r2.userId == targetId && r2.status == FriendshipStatus.accepted
            && r1.friendUserId == r2.friendUserId)).length =
        ((db.friendships.filter (fun r2 =>
          r2.userId == targetId && r2.status == FriendshipStatus.accepted)).filter
            (fun r2 => r1.friendUserId == r2.friendUserId)).length := by
      intro r1
      rw [List.filter_filter]
      congr 1
      congr 1
      funext r2
      rw [Bool.and_comm]
    rw [List.map_congr_left (fun r1 _ => hstep r1)]
    exact sum_lengths_eq_inter_card _ _
      (nodup_acceptedOutbound db callerId h)
      (nodup_acceptedOutbound db targetId h)
  · intro info hok
    simp only [getById] at hok
    split at hok
    · split at hok
      · exact absurd hok (by simp)
      · rw [Except.ok.injEq] at hok
        rw [← hok]
    · exact absurd hok (by simp)

theorem mutual_count_is_intersection_card_witness :
    UniquePairs ⟨[], [⟨0, 1, 2, .accepted⟩, ⟨1, 2, 1, .accepted⟩,
      ⟨2, 1, 3, .accepted⟩, ⟨3, 3, 1, .accepted⟩, ⟨4, 4, 2, .accepted⟩,
      ⟨5, 2, 4, .accepted⟩, ⟨6, 4, 3, .accepted⟩, ⟨7, 3, 4, .accepted⟩], 8⟩ ∧
    mutualFriendCountQuery ⟨[], [⟨0, 1, 2, .accepted⟩, ⟨1, 2, 1, .accepted⟩,
      ⟨2, 1, 3, .accepted⟩, ⟨3, 3, 1, .accepted⟩, ⟨4, 4, 2, .accepted⟩,
      ⟨5, 2, 4, .accepted⟩, ⟨6, 4, 3, .accepted⟩, ⟨7, 3, 4, .accepted⟩], 8⟩ 2 3 =
      ((acceptedOutbound ⟨[], [⟨0, 1, 2, .accepted⟩, ⟨1, 2, 1, .accepted⟩,
        ⟨2, 1, 3, .accepted⟩, ⟨3, 3, 1, .accepted⟩, ⟨4, 4, 2, .accepted⟩,
        ⟨5, 2, 4, .accepted⟩, ⟨6, 4, 3, .accepted⟩, ⟨7, 3, 4, .accepted⟩], 8⟩ 2).toFinset ∩
       (acceptedOutbound ⟨[], [⟨0, 1, 2, .accepted⟩, ⟨1, 2, 1, .accepted⟩,
        ⟨2, 1, 3, .accepted⟩, ⟨3, 3, 1, .accepted⟩, ⟨4, 4, 2, .accepted⟩,
        ⟨5, 2, 4, .accepted⟩, ⟨6, 4, 3, .accepted⟩, ⟨7, 3, 4, .accepted⟩], 8⟩ 3).toFinset).card ∧
    mutualFriendCountQuery ⟨[], [⟨0, 1, 2, .accepted⟩, ⟨1, 2, 1, .accepted⟩,
      ⟨2, 1, 3, .accepted⟩, ⟨3, 3, 1, .accepted⟩, ⟨4, 4, 2, .accepted⟩,
      ⟨5, 2, 4, .accepted⟩, ⟨6, 4, 3, .accepted⟩, ⟨7, 3, 4, .accepted⟩], 8⟩ 2 3 = 2 :=
  ⟨(by decide : (pairKeys ⟨[], [⟨0, 1, 2, .accepted⟩, ⟨1, 2, 1, .accepted⟩,
      ⟨2, 1, 3, .accepted⟩, ⟨3, 3, 1, .accepted⟩, ⟨4, 4, 2, .accepted⟩,
      ⟨5, 2, 4, .accepted⟩, ⟨6, 4, 3, .accepted⟩, ⟨7, 3, 4, .accepted⟩], 8⟩).Nodup),
    (mutual_count_is_intersection_card ⟨[], [⟨0, 1, 2, .accepted⟩, ⟨1, 2, 1, .accepted⟩,
      ⟨2, 1, 3, .accepted⟩, ⟨3, 3, 1, .accepted⟩, ⟨4, 4, 2, .accepted⟩,
      ⟨5, 2, 4, .accepted⟩, ⟨6, 4, 3, .accepted⟩, ⟨7, 3, 4, .accepted⟩], 8⟩ 2 3
      (by decide : (pairKeys ⟨[], [⟨0, 1, 2, .accepted⟩, ⟨1, 2, 1, .accepted⟩,
        ⟨2, 1, 3, .accepted⟩, ⟨3, 3, 1, .accepted⟩, ⟨4, 4, 2, .accepted⟩,
        ⟨5, 2, 4, .accepted⟩, ⟨6, 4, 3, .accepted⟩, ⟨7, 3, 4, .accepted⟩], 8⟩).Nodup)).1,
    by decide⟩
